import Mathlib

/-!
Shallow embedding of the two Cloud Run functions of this repository:

* `watch-query-function/main.py` — the Scanner: queries the `gmail_watches`
  table for watches expiring within a lookahead window and publishes one
  renewal message per record to a Pub/Sub topic.
* `renewal-worker-function/main.py` — the Worker: consumes one Pub/Sub
  message, calls the Gmail `watch` API, and updates the
  `gmail_mailbox_watches` table.

External effects (environment variables, the PostgreSQL store, the Pub/Sub
broker, the Gmail API) are passed in explicitly: environment variables as
`Option String` (with Python truthiness: `None` and `""` are falsy), the
store as a list of rows, the broker as a per-publish success oracle, and the
Gmail API as a function from credentials and request body to a result.
Timestamps in the Scanner's table are modelled as seconds since the epoch
(non-null, as the spec's data model assumes); the Worker converts the
provider's millisecond expiration to seconds as an exact rational.
-/

namespace GmailWatch

/-- Python truthiness of `os.getenv(...)`: `None` and the empty string are
falsy, any other string is truthy (used by `if not all([...])` checks). -/
def truthyEnv : Option String → Bool
  | none => false
  | some s => !(s == "")

/-! ## Scanner data model (`gmail_watches` table, watch-query-function) -/

/-- One row of the `gmail_watches` table as read by the Scanner's
`SELECT user_id, email, watch_id, expiration_time`. -/
structure WatchRow where
  user_id : String
  email : String
  watch_id : String
  expiration_time : Nat
  is_active : Bool
deriving DecidableEq

/-- Seconds in an hour; `timedelta(hours=h)` is `h * 3600` seconds. -/
def secondsPerHour : Nat := 3600

/-- The default of the `hours_ahead` parameter of `get_expiring_watches`. -/
def default_hours_ahead : Nat := 2

/-- `expiration_threshold = datetime.utcnow() + timedelta(hours=hours_ahead)`. -/
def expirationThreshold (now hours_ahead : Nat) : Nat :=
  now + hours_ahead * secondsPerHour

/-- The SQL `WHERE expiration_time <= %s AND is_active = true` predicate. -/
def watchEligible (threshold : Nat) (w : WatchRow) : Bool :=
  decide (w.expiration_time ≤ threshold) && w.is_active

/-- Comparison used for `ORDER BY expiration_time ASC`. -/
def expirationLe (a b : WatchRow) : Bool :=
  decide (a.expiration_time ≤ b.expiration_time)

/-- `get_expiring_watches`: filter the table by the eligibility predicate and
return the rows ordered ascending by `expiration_time` (stable order for
ties, matching the store's natural row order). -/
def get_expiring_watches (db : List WatchRow) (now hours_ahead : Nat) :
    List WatchRow :=
  (db.filter (watchEligible (expirationThreshold now hours_ahead))).mergeSort
    expirationLe

/-- The JSON object published per watch by `publish_renewal_messages`:
`{user_id, email, watch_id, action, timestamp}`. -/
structure ScannerMessage where
  user_id : String
  email : String
  watch_id : String
  action : String
  timestamp : String
deriving DecidableEq

/-- The `message_data` dict built inside the publish loop. -/
def makeRenewalMessage (nowIso : String) (w : WatchRow) : ScannerMessage :=
  { user_id := w.user_id, email := w.email, watch_id := w.watch_id,
    action := "renew_watch", timestamp := nowIso }

/-- The serial publish loop of `publish_renewal_messages`: publish one message
per watch, wait for each acknowledgment (`future.result()`), and count.
`pubOk k` says whether the `k`-th publish acknowledgment succeeds; on the
first failure the exception propagates, and the messages already
acknowledged (the first component) stay published. -/
def publishLoop (pubOk : Nat → Bool) (nowIso : String) :
    List WatchRow → Nat → List ScannerMessage × Except String Nat
  | [], k => ([], .ok k)
  | w :: ws, k =>
    let msg := makeRenewalMessage nowIso w
    if pubOk k then
      let rest := publishLoop pubOk nowIso ws (k + 1)
      (msg :: rest.1, rest.2)
    else
      ([], .error "Pub/Sub publish error")

/-- `publish_renewal_messages`: run the publish loop from count 0; returns the
durably published messages and either the final count or the raised error. -/
def publish_renewal_messages (pubOk : Nat → Bool) (nowIso : String)
    (watches : List WatchRow) : List ScannerMessage × Except String Nat :=
  publishLoop pubOk nowIso watches 0

/-- The Scanner's environment variables. -/
structure ScannerEnv where
  gcp_project_id : Option String
  topic_id : Option String
  database_url : Option String

/-- `if not all([project_id, topic_id, database_url])` check. -/
def scannerEnvOk (env : ScannerEnv) : Bool :=
  truthyEnv env.gcp_project_id && truthyEnv env.topic_id &&
    truthyEnv env.database_url

/-- The JSON body of the Scanner's response: the success shape carries
`success`, `message`, `watches_processed`; the failure shape carries
`success` and `error`. Absent keys are `none`. -/
structure ScannerBody where
  success : Bool
  message : Option String
  watches_processed : Option Nat
  error : Option String
deriving DecidableEq

/-- The Scanner's `{statusCode, body}` response. -/
structure ScannerResult where
  statusCode : Nat
  body : ScannerBody
deriving DecidableEq

/-- `watch_query_function`: the Scanner entry point. `dbOk` says whether the
store connection and query succeed (a failure raises inside
`get_expiring_watches` and is caught by the entry point's handler). The
second component is the list of messages durably published during the call. -/
def watch_query_function (env : ScannerEnv) (dbOk : Bool) (db : List WatchRow)
    (now : Nat) (nowIso : String) (pubOk : Nat → Bool) :
    ScannerResult × List ScannerMessage :=
  if !(scannerEnvOk env) then
    ({ statusCode := 500,
       body := { success := false, message := none, watches_processed := none,
                 error := some "Missing required environment variables" } }, [])
  else if !dbOk then
    ({ statusCode := 500,
       body := { success := false, message := none, watches_processed := none,
                 error := some "Database query error" } }, [])
  else
    let expiring := get_expiring_watches db now default_hours_ahead
    if expiring.isEmpty then
      ({ statusCode := 200,
         body := { success := true, message := some "No expiring watches found",
                   watches_processed := some 0, error := none } }, [])
    else
      let pub := publish_renewal_messages pubOk nowIso expiring
      match pub.2 with
      | .ok k =>
        ({ statusCode := 200,
           body := { success := true,
                     message := "Published " ++ toString k ++ " renewal messages"
                       |> some,
                     watches_processed := some k, error := none } }, pub.1)
      | .error e =>
        ({ statusCode := 500,
           body := { success := false, message := none,
                     watches_processed := none, error := some e } }, pub.1)

/-! ## Worker data model (`gmail_mailbox_watches` table, renewal-worker) -/

/-- The decoded JSON dict of one Pub/Sub renewal request as the Worker reads
it; each field is `some` exactly when the key is present in the dict. -/
structure RenewalMessage where
  account_id : Option String
  user_id : Option String
  email : Option String
  access_token : Option String
  refresh_token : Option String
  watch_id : Option String
deriving DecidableEq

/-- The `event` handed to the Worker: the `data` key may be absent, its
contents may fail base64/JSON decoding, or it decodes to a dict. -/
inductive EventData where
  | absent
  | malformed
  | message (m : RenewalMessage)

/-- The OAuth2 `Credentials` object built by `renew_gmail_watch`. -/
structure Credentials where
  token : String
  refresh_token : String
  token_uri : String
  client_id : String
  client_secret : String
  scopes : List String
deriving DecidableEq

/-- The body of the Gmail `users().watch` request. -/
structure WatchRequestBody where
  labelIds : List String
  labelFilterAction : String
  topicName : Option String
deriving DecidableEq

/-- The Gmail API `watch` response dict; `result.get` of an absent key is
`none`. `expiration` is in epoch milliseconds (already through `int`). -/
structure ProviderResponse where
  historyId : Option String
  expiration : Option Nat
deriving DecidableEq

/-- The Worker's environment variables. -/
structure WorkerEnv where
  gcp_project_id : Option String
  email_reply_topic : Option String
  google_client_id : Option String
  google_client_secret : Option String
  database_url : Option String

/-- The external Gmail service: from the credentials and the watch request
body to either a response or a raised error (HttpError or other). -/
def GmailApi : Type :=
  Credentials → WatchRequestBody → Except String ProviderResponse

/-- The dict returned by `renew_gmail_watch`. -/
structure RenewOutcome where
  success : Bool
  history_id : Option String
  expiration : Option Nat
  error : Option String
deriving DecidableEq

/-- The OAuth scopes requested by the Worker. -/
def gmailScopes : List String :=
  ["https://www.googleapis.com/auth/gmail.readonly",
   "https://www.googleapis.com/auth/gmail.send"]

/-- The `Credentials(...)` construction in `renew_gmail_watch`. -/
def buildCredentials (access_token refresh_token client_id client_secret :
    String) : Credentials :=
  { token := access_token, refresh_token := refresh_token,
    token_uri := "https://oauth2.googleapis.com/token",
    client_id := client_id, client_secret := client_secret,
    scopes := gmailScopes }

/-- The `watch_request` dict: always `labelIds=['INBOX']` and
`labelFilterAction='include'`; `topicName` only when the reply topic
environment variable is truthy. -/
def buildWatchRequest (project_id : String)
    (email_reply_topic : Option String) : WatchRequestBody :=
  { labelIds := ["INBOX"], labelFilterAction := "include",
    topicName :=
      if truthyEnv email_reply_topic then
        some ("projects/" ++ project_id ++ "/topics/" ++
          email_reply_topic.getD "")
      else none }

/-- `renew_gmail_watch`: checks the required environment variables, builds
credentials and the watch request, and calls the API. Never raises: every
failure is converted to a `success := false` dict. The second component
lists the API calls actually made (empty when configuration is missing). -/
def renew_gmail_watch (access_token refresh_token : String) (env : WorkerEnv)
    (api : GmailApi) : RenewOutcome × List WatchRequestBody :=
  if !(truthyEnv env.gcp_project_id && truthyEnv env.google_client_id &&
       truthyEnv env.google_client_secret) then
    ({ success := false, history_id := none, expiration := none,
       error := some "Missing required environment variables" }, [])
  else
    let credentials := buildCredentials access_token refresh_token
      (env.google_client_id.getD "") (env.google_client_secret.getD "")
    let watch_request :=
      buildWatchRequest (env.gcp_project_id.getD "") env.email_reply_topic
    match api credentials watch_request with
    | .ok result =>
      ({ success := true, history_id := result.historyId,
         expiration := result.expiration, error := none }, [watch_request])
    | .error e =>
      ({ success := false, history_id := none, expiration := none,
         error := some ("Gmail API error: " ++ e) }, [watch_request])

/-- One row of the `gmail_mailbox_watches` table updated by the Worker.
`watch_expiration` is seconds since the epoch, exact (rational). -/
structure MailboxWatchRow where
  account_id : String
  history_id : Option String
  watch_expiration : Option ℚ
  is_active : Bool
deriving DecidableEq

/-- The UPDATE's `WHERE account_id = %s AND is_active = true` predicate. -/
def rowMatches (account_id : String) (r : MailboxWatchRow) : Bool :=
  r.account_id == account_id && r.is_active

/-- `datetime.fromtimestamp(int(expiration_ms) / 1000)`: the provider's epoch
milliseconds converted to seconds since the epoch, exactly. -/
def msToSeconds (ems : Nat) : ℚ := (ems : ℚ) / 1000

/-- The effect of the UPDATE statement on the table: every matching row gets
the new `history_id` and `watch_expiration`; other rows are untouched. -/
def applyWatchUpdate (db : List MailboxWatchRow) (account_id : String)
    (history_id : Option String) (ems : Nat) : List MailboxWatchRow :=
  db.map fun r =>
    if rowMatches account_id r then
      { r with history_id := history_id,
               watch_expiration := some (msToSeconds ems) }
    else r

/-- Which log line `update_watch_in_database` emits on its success paths. -/
inductive UpdateLog where
  | updatedCommit
  | warningNoActive
deriving DecidableEq

/-- Result of `update_watch_in_database`: whether a store connection was
opened, and either the new table state with the log kind, or the raised
error (caught, logged, and re-raised by the function). -/
structure UpdateTrace where
  connected : Bool
  result : Except String (List MailboxWatchRow × UpdateLog)

/-- `update_watch_in_database`: fail when `DATABASE_URL` is falsy, connect
(`connectOk` says whether `psycopg2.connect` succeeds), convert the
expiration (`int` of a missing value raises), run the UPDATE, and commit only
when `cursor.rowcount > 0`; with zero matching rows the table is returned
unchanged, with a warning. -/
def update_watch_in_database (database_url : Option String) (connectOk : Bool)
    (db : List MailboxWatchRow) (account_id : String)
    (history_id : Option String) (expiration_ms : Option Nat) : UpdateTrace :=
  if !(truthyEnv database_url) then
    { connected := false,
      result := .error "Missing DATABASE_URL environment variable" }
  else if !connectOk then
    { connected := false, result := .error "could not connect to server" }
  else
    match expiration_ms with
    | none =>
      { connected := true, result := .error "int() argument is not valid" }
    | some ems =>
      if 0 < db.countP (rowMatches account_id) then
        { connected := true,
          result := .ok (applyWatchUpdate db account_id history_id ems,
            .updatedCommit) }
      else
        { connected := true, result := .ok (db, .warningNoActive) }

/-- The first absent required field, in the order of the `required_fields`
loop of `renewal_worker_function`; `none` when all five are present. -/
def firstMissingField (m : RenewalMessage) : Option String :=
  if m.account_id.isNone then some "account_id"
  else if m.user_id.isNone then some "user_id"
  else if m.email.isNone then some "email"
  else if m.access_token.isNone then some "access_token"
  else if m.refresh_token.isNone then some "refresh_token"
  else none

/-- How one Worker invocation ended (after its own exception handler). -/
inductive WorkerOutcome where
  | noData
  | interrupted
  | renewFailed (error : Option String)
  | renewed (ulog : UpdateLog)
  | caughtError (e : String)
deriving DecidableEq

/-- Observable effects of one Worker invocation: the Gmail API calls made,
whether a store connection was opened, the final table state, and how the
invocation ended. -/
structure WorkerTrace where
  providerCalls : List WatchRequestBody
  dbConnected : Bool
  db : List MailboxWatchRow
  outcome : WorkerOutcome
deriving DecidableEq

/-- The body of the Worker's outer `try`: returns the accumulated effects and
`some e` when an exception is in flight at that point (to be caught by the
entry point's handler), `none` when the body ran to completion. -/
def worker_try_body (event : EventData) (env : WorkerEnv) (api : GmailApi)
    (connectOk : Bool) (db : List MailboxWatchRow) :
    WorkerTrace × Option String :=
  match event with
  | .absent =>
    ({ providerCalls := [], dbConnected := false, db := db,
       outcome := .noData }, none)
  | .malformed =>
    ({ providerCalls := [], dbConnected := false, db := db,
       outcome := .interrupted }, some "message decode failed")
  | .message m =>
    match firstMissingField m with
    | some f =>
      ({ providerCalls := [], dbConnected := false, db := db,
         outcome := .interrupted }, some ("Missing required field: " ++ f))
    | none =>
      let renewal := renew_gmail_watch (m.access_token.getD "")
        (m.refresh_token.getD "") env api
      if renewal.1.success then
        let ut := update_watch_in_database env.database_url connectOk db
          (m.account_id.getD "") renewal.1.history_id renewal.1.expiration
        match ut.result with
        | .ok (db2, ulog) =>
          ({ providerCalls := renewal.2, dbConnected := ut.connected,
             db := db2, outcome := .renewed ulog }, none)
        | .error e =>
          ({ providerCalls := renewal.2, dbConnected := ut.connected,
             db := db, outcome := .interrupted }, some e)
      else
        ({ providerCalls := renewal.2, dbConnected := false, db := db,
           outcome := .renewFailed renewal.1.error }, none)

/-- `renewal_worker_function`: the Worker entry point. Its outer handler
catches every exception of the body, logs it, and returns normally; an
`Except.error` result would mean an exception escaped the entry point. -/
def renewal_worker_function (event : EventData) (env : WorkerEnv)
    (api : GmailApi) (connectOk : Bool) (db : List MailboxWatchRow) :
    Except String WorkerTrace :=
  let body := worker_try_body event env api connectOk db
  match body.2 with
  | some e => .ok { body.1 with outcome := .caughtError e }
  | none => .ok body.1

/-- How the Worker decodes a Scanner-published JSON message: the dict has
exactly the keys `user_id, email, watch_id, action, timestamp`, so the
fields `account_id`, `access_token` and `refresh_token` are absent. -/
def scannerMessageToWorker (msg : ScannerMessage) : RenewalMessage :=
  { account_id := none, user_id := some msg.user_id,
    email := some msg.email, access_token := none, refresh_token := none,
    watch_id := some msg.watch_id }

/-! ## Helper lemmas -/

/-- The transitivity fact `sorted_mergeSort` needs for `expirationLe`. -/
theorem expirationLe_trans (a b c : WatchRow) (hab : expirationLe a b)
    (hbc : expirationLe b c) : expirationLe a c := by
  simp only [expirationLe, decide_eq_true_eq] at hab hbc ⊢
  omega

/-- The totality fact `sorted_mergeSort` needs for `expirationLe`. -/
theorem expirationLe_total (a b : WatchRow) : expirationLe a b || expirationLe b a := by
  simp only [expirationLe]
  rcases Nat.le_total a.expiration_time b.expiration_time with h | h <;> simp [h]

/-- On the success path, the count returned by the publish loop equals the
starting count plus the number of messages acknowledged during the loop. -/
theorem publishLoop_ok_count (pubOk : Nat → Bool) (nowIso : String) :
    ∀ (ws : List WatchRow) (k n : Nat),
      (publishLoop pubOk nowIso ws k).2 = .ok n →
      n = k + (publishLoop pubOk nowIso ws k).1.length := by
  intro ws
  induction ws with
  | nil =>
    intro k n h
    simp only [publishLoop] at h
    injection h with h
    simp [publishLoop, h]
  | cons w ws ih =>
    intro k n h
    by_cases hp : pubOk k
    · simp only [publishLoop, hp, if_true, List.length_cons] at h ⊢
      have := ih (k + 1) n h
      omega
    · simp only [publishLoop, hp, if_false] at h
      exact Except.noConfusion h

/-! ## Claim theorems -/

/-- C2: for every store state, the Scanner's query selects exactly the rows
with `is_active = true` and `expiration_time ≤ now + lookahead` (the
lookahead parameter defaulting to 2 hours), and returns them in ascending
order of `expiration_time`. -/
theorem scanner_selects_exactly_expiring (db : List WatchRow)
    (now hours_ahead : Nat) :
    default_hours_ahead = 2 ∧
    (∀ w, w ∈ get_expiring_watches db now hours_ahead ↔
      (w ∈ db ∧ w.is_active = true ∧
        w.expiration_time ≤ now + hours_ahead * 3600)) ∧
    (get_expiring_watches db now hours_ahead).Pairwise
      (fun a b => a.expiration_time ≤ b.expiration_time) := by
  refine ⟨rfl, ?_, ?_⟩
  · intro w
    simp only [get_expiring_watches, List.mem_mergeSort, List.mem_filter,
      watchEligible, expirationThreshold, secondsPerHour, Bool.and_eq_true,
      decide_eq_true_eq]
    tauto
  · have h := List.sorted_mergeSort expirationLe_trans expirationLe_total
      (db.filter (watchEligible (expirationThreshold now hours_ahead)))
    exact h.imp (fun hab => by
      simpa only [expirationLe, decide_eq_true_eq] using hab)

/-- C2 witness: a single active row expiring at 100 with `now = 0` and the
default lookahead is selected. -/
theorem scanner_selects_exactly_expiring_witness :
    (⟨"U", "e", "W", 100, true⟩ : WatchRow) ∈
      get_expiring_watches [⟨"U", "e", "W", 100, true⟩] 0 2 :=
  ((scanner_selects_exactly_expiring [⟨"U", "e", "W", 100, true⟩] 0 2).2.1
    _).mpr ⟨List.mem_singleton.mpr rfl, rfl, by norm_num⟩

/-- C7: every Scanner invocation returns either status 200 with a body
carrying `success = true`, a `message` and a `watches_processed` count, or
status 500 with `success = false` and an error string; and with a good
environment, a working store and zero eligible records the exact response is
`{success: true, watches_processed: 0}` with nothing published. -/
theorem scanner_response_shape (env : ScannerEnv) (dbOk : Bool)
    (db : List WatchRow) (now : Nat) (nowIso : String) (pubOk : Nat → Bool) :
    (((watch_query_function env dbOk db now nowIso pubOk).1.statusCode = 200 ∧
      (watch_query_function env dbOk db now nowIso pubOk).1.body.success = true ∧
      ((watch_query_function env dbOk db now nowIso pubOk).1.body.message).isSome
        = true ∧
      ((watch_query_function env dbOk db now nowIso
        pubOk).1.body.watches_processed).isSome = true ∧
      (watch_query_function env dbOk db now nowIso pubOk).1.body.error = none) ∨
     ((watch_query_function env dbOk db now nowIso pubOk).1.statusCode = 500 ∧
      (watch_query_function env dbOk db now nowIso pubOk).1.body.success
        = false ∧
      ((watch_query_function env dbOk db now nowIso pubOk).1.body.error).isSome
        = true)) ∧
    (scannerEnvOk env = true → dbOk = true →
      get_expiring_watches db now default_hours_ahead = [] →
      watch_query_function env dbOk db now nowIso pubOk =
        ({ statusCode := 200,
           body := { success := true,
                     message := some "No expiring watches found",
                     watches_processed := some 0, error := none } }, [])) := by
  constructor
  · unfold watch_query_function
    by_cases h1 : scannerEnvOk env
    · by_cases h2 : dbOk
      · by_cases h3 :
          (get_expiring_watches db now default_hours_ahead).isEmpty
        · simp [h1, h2, h3]
        · rcases hp : (publish_renewal_messages pubOk nowIso
            (get_expiring_watches db now default_hours_ahead)).2 with e | k <;>
            simp [h1, h2, h3, hp]
      · simp [h1, h2]
    · simp [h1]
  · intro h1 h2 h3
    simp [watch_query_function, h1, h2, h3]

/-- C7 witness: with a fully configured environment, a working store and an
empty table, the Scanner returns exactly the zero-watches 200 response. -/
theorem scanner_response_shape_witness :
    watch_query_function ⟨some "p", some "t", some "d"⟩ true [] 0 "T"
      (fun _ => true) =
      ({ statusCode := 200,
         body := { success := true, message := some "No expiring watches found",
                   watches_processed := some 0, error := none } }, []) :=
  (scanner_response_shape ⟨some "p", some "t", some "d"⟩ true [] 0 "T"
    (fun _ => true)).2 (by decide) rfl (by simp [get_expiring_watches])

/-- Scanner store used in the mid-batch publish failure counterexample. -/
def midBatchRow1 : WatchRow := ⟨"U1", "e1", "W1", 100, true⟩

/-- Second row of the mid-batch counterexample store. -/
def midBatchRow2 : WatchRow := ⟨"U2", "e2", "W2", 200, true⟩

/-- A fully configured Scanner environment for concrete runs. -/
def okScannerEnv : ScannerEnv := ⟨some "proj", some "topic", some "db"⟩

/-- A publish oracle whose first acknowledgment succeeds and whose second
fails. -/
def firstOnlyPubOk : Nat → Bool := fun k => k == 0

/-- C6 counterexample: with two eligible records and a publish failure after
one acknowledgment (K = 1 of N = 2), the Scanner's response is status 500
and carries no `watches_processed` count at all; it does not report K. -/
theorem scanner_count_midbatch_counterexample :
    (watch_query_function okScannerEnv true [midBatchRow1, midBatchRow2] 0 "T"
      firstOnlyPubOk).2.length = 1 ∧
    (watch_query_function okScannerEnv true [midBatchRow1, midBatchRow2] 0 "T"
      firstOnlyPubOk).1.statusCode = 500 ∧
    (watch_query_function okScannerEnv true [midBatchRow1, midBatchRow2] 0 "T"
      firstOnlyPubOk).1.body.watches_processed = none := by
  have hget : get_expiring_watches [midBatchRow1, midBatchRow2] 0
      default_hours_ahead = [midBatchRow1, midBatchRow2] := by
    unfold get_expiring_watches
    have hfil : ([midBatchRow1, midBatchRow2].filter
        (watchEligible (expirationThreshold 0 default_hours_ahead))) =
        [midBatchRow1, midBatchRow2] := by decide
    rw [hfil]
    exact List.mergeSort_of_sorted (by decide)
  refine ⟨?_, ?_, ?_⟩ <;>
    simp [watch_query_function, hget, publish_renewal_messages, publishLoop,
      firstOnlyPubOk, okScannerEnv, scannerEnvOk, truthyEnv]

/-- C6 amended: when the environment check and the store query succeed, every
200 response reports `watches_processed` equal to the number of successful
publish acknowledgments (the number of messages durably published), and every
500 response reports no count at all. -/
theorem scanner_count_amended (env : ScannerEnv) (dbOk : Bool)
    (db : List WatchRow) (now : Nat) (nowIso : String) (pubOk : Nat → Bool)
    (henv : scannerEnvOk env = true) (hdb : dbOk = true) :
    ((watch_query_function env dbOk db now nowIso pubOk).1.statusCode = 200 →
      (watch_query_function env dbOk db now nowIso
        pubOk).1.body.watches_processed =
        some (watch_query_function env dbOk db now nowIso pubOk).2.length) ∧
    ((watch_query_function env dbOk db now nowIso pubOk).1.statusCode = 500 →
      (watch_query_function env dbOk db now nowIso
        pubOk).1.body.watches_processed = none) := by
  subst hdb
  unfold watch_query_function publish_renewal_messages
  by_cases h3 : (get_expiring_watches db now default_hours_ahead).isEmpty
  · simp [henv, h3]
  · rcases hp : (publishLoop pubOk nowIso
      (get_expiring_watches db now default_hours_ahead) 0).2 with e | k
    · simp [henv, h3, hp]
    · have hk := publishLoop_ok_count pubOk nowIso
        (get_expiring_watches db now default_hours_ahead) 0 k hp
      simp only [Nat.zero_add] at hk
      simp [henv, h3, hp, hk]

/-- C6 amended witness: with one eligible record and a successful publish,
the 200 response reports a count of 1, the number of published messages. -/
theorem scanner_count_amended_witness :
    (watch_query_function okScannerEnv true [midBatchRow1] 0 "T"
      (fun _ => true)).1.body.watches_processed =
      some (watch_query_function okScannerEnv true [midBatchRow1] 0 "T"
        (fun _ => true)).2.length := by
  apply (scanner_count_amended okScannerEnv true [midBatchRow1] 0 "T"
    (fun _ => true) (by decide) rfl).1
  have hget : get_expiring_watches [midBatchRow1] 0 default_hours_ahead =
      [midBatchRow1] := by
    unfold get_expiring_watches
    have hfil : ([midBatchRow1].filter
        (watchEligible (expirationThreshold 0 default_hours_ahead))) =
        [midBatchRow1] := by decide
    rw [hfil]
    exact List.mergeSort_singleton midBatchRow1
  simp [watch_query_function, hget, publish_renewal_messages, publishLoop,
    okScannerEnv, scannerEnvOk, truthyEnv]

/-- Every Gmail API call issued by `renew_gmail_watch` uses exactly the watch
request body built from process configuration alone. -/
theorem renew_gmail_watch_calls (access_token refresh_token : String)
    (env : WorkerEnv) (api : GmailApi) :
    ∀ b ∈ (renew_gmail_watch access_token refresh_token env api).2,
      b = buildWatchRequest (env.gcp_project_id.getD "")
        env.email_reply_topic := by
  intro b hb
  unfold renew_gmail_watch at hb
  cases hc : (truthyEnv env.gcp_project_id && truthyEnv env.google_client_id
      && truthyEnv env.google_client_secret) with
  | false => simp [hc] at hb
  | true =>
    rcases hapi : api (buildCredentials access_token refresh_token
        (env.google_client_id.getD "") (env.google_client_secret.getD ""))
        (buildWatchRequest (env.gcp_project_id.getD "") env.email_reply_topic)
      with e | r <;> simp [hc, hapi] at hb <;> exact hb

/-- Every Gmail API call recorded in a Worker trace uses exactly the watch
request body built from process configuration alone. -/
theorem worker_trace_calls (m : RenewalMessage) (env : WorkerEnv)
    (api : GmailApi) (connectOk : Bool) (db : List MailboxWatchRow)
    (t : WorkerTrace)
    (ht : renewal_worker_function (.message m) env api connectOk db = .ok t) :
    ∀ b ∈ t.providerCalls,
      b = buildWatchRequest (env.gcp_project_id.getD "")
        env.email_reply_topic := by
  intro b hb
  rcases hmf : firstMissingField m with _ | f
  · simp only [renewal_worker_function, worker_try_body, hmf] at ht
    by_cases hs : (renew_gmail_watch (m.access_token.getD "")
        (m.refresh_token.getD "") env api).1.success = true
    · rcases hres : (update_watch_in_database env.database_url connectOk db
          (m.account_id.getD "")
          (renew_gmail_watch (m.access_token.getD "")
            (m.refresh_token.getD "") env api).1.history_id
          (renew_gmail_watch (m.access_token.getD "")
            (m.refresh_token.getD "") env api).1.expiration).result
          with e | p
      · simp only [hs, if_true, hres] at ht
        injection ht with ht
        subst ht
        exact renew_gmail_watch_calls _ _ env api b hb
      · rcases p with ⟨db2, ulog⟩
        simp only [hs, if_true, hres] at ht
        injection ht with ht
        subst ht
        exact renew_gmail_watch_calls _ _ env api b hb
    · simp only [Bool.not_eq_true] at hs
      simp only [hs, Bool.false_eq_true, if_false] at ht
      injection ht with ht
      subst ht
      exact renew_gmail_watch_calls _ _ env api b hb
  · simp only [renewal_worker_function, worker_try_body, hmf] at ht
    injection ht with ht
    subst ht
    simp at hb

/-- C3: for every event, provider behaviour, store-connection outcome and
store state, the Worker entry point returns normally: no exception escapes
its boundary. -/
theorem worker_never_raises (event : EventData) (env : WorkerEnv)
    (api : GmailApi) (connectOk : Bool) (db : List MailboxWatchRow) :
    ∃ t, renewal_worker_function event env api connectOk db = .ok t := by
  unfold renewal_worker_function
  rcases h : (worker_try_body event env api connectOk db).2 with _ | e <;>
    simp [h]

/-- C4: a message from which a required field is absent causes no store
mutation, no store connection, no provider call, and a normal return. -/
theorem worker_missing_field_no_effects (m : RenewalMessage) (env : WorkerEnv)
    (api : GmailApi) (connectOk : Bool) (db : List MailboxWatchRow)
    (f : String) (h : firstMissingField m = some f) :
    renewal_worker_function (.message m) env api connectOk db =
      .ok { providerCalls := [], dbConnected := false, db := db,
            outcome := .caughtError ("Missing required field: " ++ f) } := by
  simp [renewal_worker_function, worker_try_body, h]

/-- A message whose `access_token` key is absent. -/
def missingTokenMessage : RenewalMessage :=
  { account_id := some "A1", user_id := some "U1", email := some "u@x",
    access_token := none, refresh_token := some "RT", watch_id := none }

/-- A Gmail service that would record an error if it were ever reached. -/
def nullApi : GmailApi := fun _ _ => .error "unreachable"

/-- A Worker environment with every variable unset. -/
def emptyWorkerEnv : WorkerEnv := ⟨none, none, none, none, none⟩

/-- C4 witness: the concrete message missing `access_token` leaves the store
untouched and makes no API call. -/
theorem worker_missing_field_no_effects_witness :
    renewal_worker_function (.message missingTokenMessage) emptyWorkerEnv
      nullApi true [] =
      .ok { providerCalls := [], dbConnected := false, db := [],
            outcome := .caughtError
              ("Missing required field: " ++ "access_token") } :=
  worker_missing_field_no_effects missingTokenMessage emptyWorkerEnv nullApi
    true [] "access_token" rfl

/-- C5: when no active row matches the `account_id`, the update leaves the
store unchanged and logs a warning rather than an error, and a commit happens
only when the UPDATE affected at least one row. -/
theorem worker_update_zero_rows (url : Option String) (connectOk : Bool)
    (db : List MailboxWatchRow) (account_id : String)
    (history_id : Option String) (ems : Nat)
    (hurl : truthyEnv url = true) (hc : connectOk = true) :
    (db.countP (rowMatches account_id) = 0 →
      (update_watch_in_database url connectOk db account_id history_id
        (some ems)).result = .ok (db, .warningNoActive)) ∧
    (∀ db2, (update_watch_in_database url connectOk db account_id history_id
        (some ems)).result = .ok (db2, .updatedCommit) →
      0 < db.countP (rowMatches account_id)) := by
  subst hc
  constructor
  · intro h0
    simp [update_watch_in_database, hurl, h0]
  · intro db2 hok
    by_cases hm : 0 < db.countP (rowMatches account_id)
    · exact hm
    · simp [update_watch_in_database, hurl, hm] at hok

/-- C5 witness: updating `A1` against a store with no rows at all leaves the
store unchanged with the warning log. -/
theorem worker_update_zero_rows_witness :
    (update_watch_in_database (some "db") true [] "A1" (some "999")
      (some 1000)).result = .ok ([], .warningNoActive) :=
  (worker_update_zero_rows (some "db") true [] "A1" (some "999") 1000
    (by decide) rfl).1 rfl

/-- C8: on a successful provider response, the Worker writes the returned
history id and the expiration converted from epoch milliseconds to exactly
`ems / 1000` seconds since the epoch to every active row of the message's
`account_id`, leaving all other rows untouched. -/
theorem worker_update_converts_ms_and_writes (url : Option String)
    (connectOk : Bool) (db : List MailboxWatchRow) (account_id : String)
    (history_id : Option String) (ems : Nat)
    (hurl : truthyEnv url = true) (hc : connectOk = true)
    (hm : 0 < db.countP (rowMatches account_id)) :
    (update_watch_in_database url connectOk db account_id history_id
      (some ems)).result =
      .ok (db.map (fun r =>
          if rowMatches account_id r then
            { r with history_id := history_id,
                     watch_expiration := some ((ems : ℚ) / 1000) }
          else r),
        .updatedCommit) := by
  subst hc
  simp [update_watch_in_database, hurl, hm, applyWatchUpdate, msToSeconds]

/-- An active `gmail_mailbox_watches` row for account `A1`. -/
def sampleActiveRow : MailboxWatchRow := ⟨"A1", some "H_OLD", some 1800, true⟩

/-- C8 witness: a provider expiration of 604800000 ms is written as the
timestamp 604800 s together with history id 999. -/
theorem worker_update_converts_ms_and_writes_witness :
    (update_watch_in_database (some "db") true [sampleActiveRow] "A1"
      (some "999") (some 604800000)).result =
      .ok ([⟨"A1", some "999", some 604800, true⟩], .updatedCommit) := by
  have h := worker_update_converts_ms_and_writes (some "db") true
    [sampleActiveRow] "A1" (some "999") 604800000 (by decide) rfl (by decide)
  rw [h]
  norm_num [sampleActiveRow, rowMatches]

/-- C9: the Worker's renewal behaviour depends only on the message's
`account_id`, `access_token` and `refresh_token` (plus configuration and the
external world): two complete messages equal on those three fields — however
they differ in `watch_id`, `email` or `user_id` — yield identical traces
(provider calls, store connection, store state, outcome), and every provider
call uses the fixed body built from configuration, with
`labelIds = ['INBOX']` and `labelFilterAction = 'include'`; the old watch's
identifier is never consulted. -/
theorem worker_renewal_independent_of_watch_identity (m1 m2 : RenewalMessage)
    (env : WorkerEnv) (api : GmailApi) (connectOk : Bool)
    (db : List MailboxWatchRow)
    (h1 : firstMissingField m1 = none) (h2 : firstMissingField m2 = none)
    (haid : m1.account_id = m2.account_id)
    (hat : m1.access_token = m2.access_token)
    (hrt : m1.refresh_token = m2.refresh_token) :
    renewal_worker_function (.message m1) env api connectOk db =
      renewal_worker_function (.message m2) env api connectOk db ∧
    (∀ t, renewal_worker_function (.message m1) env api connectOk db = .ok t →
      ∀ b ∈ t.providerCalls,
        b = buildWatchRequest (env.gcp_project_id.getD "")
          env.email_reply_topic ∧
        b.labelIds = ["INBOX"] ∧ b.labelFilterAction = "include") := by
  constructor
  · have hbody : worker_try_body (.message m1) env api connectOk db =
        worker_try_body (.message m2) env api connectOk db := by
      simp only [worker_try_body, h1, h2, haid, hat, hrt]
    unfold renewal_worker_function
    rw [hbody]
  · intro t ht b hb
    have hcall := worker_trace_calls m1 env api connectOk db t ht b hb
    refine ⟨hcall, ?_, ?_⟩ <;> rw [hcall] <;> rfl

/-- A complete renewal message for account `A1` with watch id `W1`. -/
def fullMessage : RenewalMessage :=
  { account_id := some "A1", user_id := some "U1", email := some "u@x",
    access_token := some "AT", refresh_token := some "RT",
    watch_id := some "W1" }

/-- The same message with a different watch id, email and user id. -/
def fullMessageOtherWatch : RenewalMessage :=
  { account_id := some "A1", user_id := some "U2", email := some "v@x",
    access_token := some "AT", refresh_token := some "RT",
    watch_id := some "W2" }

/-- C9 witness: the two concrete messages differing only in `watch_id`,
`email` and `user_id` produce identical Worker runs. -/
theorem worker_renewal_independent_of_watch_identity_witness :
    renewal_worker_function (.message fullMessage) emptyWorkerEnv nullApi true
      [sampleActiveRow] =
      renewal_worker_function (.message fullMessageOtherWatch) emptyWorkerEnv
        nullApi true [sampleActiveRow] :=
  (worker_renewal_independent_of_watch_identity fullMessage
    fullMessageOtherWatch emptyWorkerEnv nullApi true [sampleActiveRow]
    rfl rfl rfl rfl rfl).1

/-- C10: when `renew_gmail_watch` does not succeed (missing configuration or
a provider error), the Worker opens no store connection and the store is
returned unchanged. -/
theorem worker_no_store_contact_on_provider_failure (m : RenewalMessage)
    (env : WorkerEnv) (api : GmailApi) (connectOk : Bool)
    (db : List MailboxWatchRow)
    (hfields : firstMissingField m = none)
    (hfail : (renew_gmail_watch (m.access_token.getD "")
      (m.refresh_token.getD "") env api).1.success = false) :
    renewal_worker_function (.message m) env api connectOk db =
      .ok { providerCalls := (renew_gmail_watch (m.access_token.getD "")
              (m.refresh_token.getD "") env api).2,
            dbConnected := false, db := db,
            outcome := .renewFailed
              ((renew_gmail_watch (m.access_token.getD "")
                (m.refresh_token.getD "") env api).1.error) } := by
  simp [renewal_worker_function, worker_try_body, hfields, hfail]

/-- C10 witness: with the Gmail configuration unset the provider step fails,
and the Worker run leaves the store row untouched with no connection. -/
theorem worker_no_store_contact_on_provider_failure_witness :
    renewal_worker_function (.message fullMessage) emptyWorkerEnv nullApi true
      [sampleActiveRow] =
      .ok { providerCalls := [], dbConnected := false,
            db := [sampleActiveRow],
            outcome := .renewFailed
              (some "Missing required environment variables") } := by
  have h := worker_no_store_contact_on_provider_failure fullMessage
    emptyWorkerEnv nullApi true [sampleActiveRow] rfl rfl
  simpa [renew_gmail_watch, emptyWorkerEnv, truthyEnv] using h

/-- The store row of the end-to-end scenario, expiring 30 minutes after
`now = 0`, well inside the 2-hour lookahead. -/
def a1ScannerRow : WatchRow := ⟨"U1", "a1@example.com", "W_OLD", 1800, true⟩

/-- The Worker environment of the end-to-end scenario, fully configured. -/
def a1WorkerEnv : WorkerEnv :=
  ⟨some "proj", some "etopic", some "cid", some "csec", some "dburl"⟩

/-- A provider that answers every watch call with
`{historyId: "999", expiration: 604800000}`. -/
def a1Api : GmailApi := fun _ _ => .ok ⟨some "999", some 604800000⟩

/-- The Worker-side store of the end-to-end scenario: one active row for
account `A1`. -/
def a1WorkerDb : List MailboxWatchRow := [⟨"A1", some "H_OLD", some 1800, true⟩]

/-- The message the Scanner publishes for the scenario row. -/
def a1Message : ScannerMessage :=
  ⟨"U1", "a1@example.com", "W_OLD", "renew_watch", "T0"⟩

/-- C1: the Scanner does find the expiring record and publish a message for
it, but that message carries only `{user_id, email, watch_id, action,
timestamp}`: the Worker's validation fails on the absent `account_id`, so the
provider is never called and the store row for `A1` keeps its old
`history_id` and `watch_expiration` — the end-to-end renewal never happens. -/
theorem end_to_end_schema_mismatch :
    (watch_query_function okScannerEnv true [a1ScannerRow] 0 "T0"
      (fun _ => true)).2 = [a1Message] ∧
    firstMissingField (scannerMessageToWorker a1Message) = some "account_id" ∧
    renewal_worker_function (.message (scannerMessageToWorker a1Message))
      a1WorkerEnv a1Api true a1WorkerDb =
      .ok { providerCalls := [], dbConnected := false, db := a1WorkerDb,
            outcome := .caughtError "Missing required field: account_id" } := by
  refine ⟨?_, rfl, ?_⟩
  · have hget : get_expiring_watches
        [(⟨"U1", "a1@example.com", "W_OLD", 1800, true⟩ : WatchRow)] 0
        default_hours_ahead =
        [⟨"U1", "a1@example.com", "W_OLD", 1800, true⟩] := by
      unfold get_expiring_watches
      have hfil : ([(⟨"U1", "a1@example.com", "W_OLD", 1800, true⟩ :
          WatchRow)].filter
          (watchEligible (expirationThreshold 0 default_hours_ahead))) =
          [⟨"U1", "a1@example.com", "W_OLD", 1800, true⟩] := by decide
      rw [hfil]
      exact List.mergeSort_singleton _
    simp [watch_query_function, a1ScannerRow, hget, publish_renewal_messages,
      publishLoop, okScannerEnv, scannerEnvOk, truthyEnv, makeRenewalMessage,
      a1Message]
  · simp [renewal_worker_function, worker_try_body, scannerMessageToWorker,
      a1Message, firstMissingField]

end GmailWatch
